import Mathlib

/-!
Verification of the Eaton PDU power backend
(`labgrid/driver/power/eaton.py`).

The driver is embedded shallowly: the session capability (the `_Snmp`
wrapper around pysnmp) is passed in explicitly as a pair of oracles, and
each driver call returns, next to its result, the trace of interactions it
performed with that capability (session construction, reads, writes).
Python's `assert` failures are modelled as a `contract` error with an empty
trace, since both asserts in the source precede the `_Snmp(...)`
construction and any network interaction.
-/

namespace Eaton

/-- `OID` in `eaton.py`: the vendor-specific base object identifier of the
Eaton outlet-control tree. -/
def OID : String := ".1.3.6.1.4.1.534.6.6.7.6.6.1"

/-- `NUMBER_OF_OUTLETS` in `eaton.py`: the fixed outlet count of the
supported device family. -/
def NUMBER_OF_OUTLETS : Int := 16

/-- Python `int()` applied to an exact numeric value: truncation toward
zero. `power_set` and `power_get` both apply it to `index`, and `power_set`
also applies it to `value` (`4 if int(value) else 3`). -/
def pyInt (q : ℚ) : Int := q.num.tdiv q.den

/-- One observable interaction of the driver with the SNMP layer:
construction of the per-call `_Snmp` session object (`_Snmp(host,
'public')`), one `get`, or one `set`. -/
inductive SnmpEvent where
  | connect (host community : String)
  | read (oid : String)
  | write (oid : String) (value : Int)
  deriving DecidableEq, Repr

/-- Driver-visible failures. `contract` models a failed `assert`
(AssertionError, caller misuse); `protocol msg` models
`raise ExecutionError(msg)` from the driver itself; `session e` models an
exception raised inside the session capability and propagated unchanged
through the driver, which installs no handler. -/
inductive DriverError where
  | contract
  | protocol (msg : String)
  | session (e : String)
  deriving DecidableEq, Repr

/-- The spec's two-kind error taxonomy (its error-handling section)
classifies every non-contract failure -- a driver-raised ExecutionError as
well as a session-capability failure surfaced verbatim -- as a
ProtocolError. -/
def DriverError.isProtocolError : DriverError → Bool
  | .contract => false
  | .protocol _ => true
  | .session _ => true

/-- Behaviour of the session capability (`_Snmp.get` / `_Snmp.set`): each
call either returns a value or fails with a session-level error. -/
structure SnmpSession where
  get : String → Except String Int
  set : String → Int → Except String Unit

/-- A session whose `get` always returns the raw integer `v` and whose
`set` always succeeds: the test double used to exercise the decoding
chain. -/
def constSession (v : Int) : SnmpSession :=
  ⟨fun _ => .ok v, fun _ _ => .ok ()⟩

/-- The three operations for which the driver resolves an object address:
the status read in `power_get` and the two control writes in `power_set`,
where the sub-tree digit is `4 if int(value) else 3`. -/
inductive OpKind where
  | readStatus
  | writeOn
  | writeOff
  deriving DecidableEq, Fintype

/-- The object address the driver computes,
`"{}.{}.0.{}".format(OID, id, index)`: sub-tree id 2 for the status read,
4 for turn-on, 3 for turn-off. -/
def resolveOid : OpKind → Int → String
  | .readStatus, index => s!"{OID}.2.0.{index}"
  | .writeOn, index => s!"{OID}.4.0.{index}"
  | .writeOff, index => s!"{OID}.3.0.{index}"

/-- The sub-tree selector digit of each operation kind. -/
def subtreeDigit : OpKind → String
  | .readStatus => "2"
  | .writeOn => "4"
  | .writeOff => "3"

/-- `power_set(host, port, index, value)` from `eaton.py`, with the session
capability explicit and the interactions it issues returned as a trace.
`([], .error .contract)` models an `assert` failing before the `_Snmp`
object is constructed. -/
def power_set (sess : SnmpSession) (host : String) (port : Option Int)
    (index value : ℚ) : List SnmpEvent × Except DriverError Unit :=
  if port ≠ none then ([], .error .contract) else
  let index := pyInt index
  if ¬(1 ≤ index ∧ index ≤ NUMBER_OF_OUTLETS) then ([], .error .contract) else
  let id : Int := if pyInt value ≠ 0 then 4 else 3
  let outlet_control_oid := s!"{OID}.{id}.0.{index}"
  match sess.set outlet_control_oid 1 with
  | .ok _ => ([.connect host "public", .write outlet_control_oid 1], .ok ())
  | .error e =>
      ([.connect host "public", .write outlet_control_oid 1],
        .error (.session e))

/-- `power_get(host, port, index)` from `eaton.py`, likewise with an
explicit session capability and an interaction trace. The decoding chain
mirrors the source order: 1 -> True, 0 -> False, 3 -> True (pending on,
treated as on), 2 -> False (pending off, treated as off), otherwise
`raise ExecutionError("failed to get SNMP value")`. -/
def power_get (sess : SnmpSession) (host : String) (port : Option Int)
    (index : ℚ) : List SnmpEvent × Except DriverError Bool :=
  if port ≠ none then ([], .error .contract) else
  let index := pyInt index
  if ¬(1 ≤ index ∧ index ≤ NUMBER_OF_OUTLETS) then ([], .error .contract) else
  let output_status_oid := s!"{OID}.2.0.{index}"
  match sess.get output_status_oid with
  | .error e =>
      ([.connect host "public", .read output_status_oid],
        .error (.session e))
  | .ok value =>
      ([.connect host "public", .read output_status_oid],
        if value = 1 then .ok true
        else if value = 0 then .ok false
        else if value = 3 then .ok true
        else if value = 2 then .ok false
        else .error (.protocol "failed to get SNMP value"))

end Eaton

namespace Eaton

lemma toString_string (s : String) : toString s = s := rfl

lemma power_get_valid (sess : SnmpSession) (host : String) (i : ℚ)
    (h1 : 1 ≤ pyInt i) (h2 : pyInt i ≤ NUMBER_OF_OUTLETS) :
    power_get sess host none i =
      match sess.get (resolveOid .readStatus (pyInt i)) with
      | .error e =>
          ([.connect host "public", .read (resolveOid .readStatus (pyInt i))],
            .error (.session e))
      | .ok value =>
          ([.connect host "public", .read (resolveOid .readStatus (pyInt i))],
            if value = 1 then .ok true
            else if value = 0 then .ok false
            else if value = 3 then .ok true
            else if value = 2 then .ok false
            else .error (.protocol "failed to get SNMP value")) := by
  have hport : ¬((none : Option Int) ≠ none) := fun h => h rfl
  unfold power_get
  rw [if_neg hport, if_neg (not_not_intro ⟨h1, h2⟩)]
  rfl

lemma power_set_valid (sess : SnmpSession) (host : String) (i v : ℚ)
    (h1 : 1 ≤ pyInt i) (h2 : pyInt i ≤ NUMBER_OF_OUTLETS) :
    power_set sess host none i v =
      match sess.set
          (resolveOid (if pyInt v = 0 then .writeOff else .writeOn) (pyInt i)) 1 with
      | .ok _ =>
          ([.connect host "public",
            .write (resolveOid (if pyInt v = 0 then .writeOff else .writeOn) (pyInt i)) 1],
            .ok ())
      | .error e =>
          ([.connect host "public",
            .write (resolveOid (if pyInt v = 0 then .writeOff else .writeOn) (pyInt i)) 1],
            .error (.session e)) := by
  have hport : ¬((none : Option Int) ≠ none) := fun h => h rfl
  unfold power_set
  rw [if_neg hport, if_neg (not_not_intro ⟨h1, h2⟩)]
  by_cases hv : pyInt v = 0
  · rw [if_neg (not_not_intro hv), if_pos hv]
    rfl
  · rw [if_pos hv, if_neg hv]
    rfl

lemma power_get_trace (sess : SnmpSession) (host : String) (i : ℚ)
    (h1 : 1 ≤ pyInt i) (h2 : pyInt i ≤ NUMBER_OF_OUTLETS) :
    (power_get sess host none i).1 =
      [.connect host "public", .read (resolveOid .readStatus (pyInt i))] := by
  rw [power_get_valid _ _ _ h1 h2]
  cases sess.get (resolveOid .readStatus (pyInt i)) <;> rfl

lemma power_set_trace (sess : SnmpSession) (host : String) (i v : ℚ)
    (h1 : 1 ≤ pyInt i) (h2 : pyInt i ≤ NUMBER_OF_OUTLETS) :
    (power_set sess host none i v).1 =
      [.connect host "public",
        .write (resolveOid (if pyInt v = 0 then .writeOff else .writeOn) (pyInt i)) 1] := by
  rw [power_set_valid _ _ _ _ h1 h2]
  cases sess.set (resolveOid (if pyInt v = 0 then .writeOff else .writeOn) (pyInt i)) 1 <;> rfl

/-- C1 (amended): for every raw status value `v` returned by the session
read, `power_get` decodes totally: 0 and 2 give `false`, 1 and 3 give
`true`, and any other integer raises the ProtocolError
`"failed to get SNMP value"` rather than silently defaulting. -/
theorem claim_C1 (v : Int) (host : String) (i : ℚ)
    (h1 : 1 ≤ pyInt i) (h2 : pyInt i ≤ NUMBER_OF_OUTLETS) :
    (power_get (constSession v) host none i).2 =
      if v = 0 then .ok false
      else if v = 1 then .ok true
      else if v = 2 then .ok false
      else if v = 3 then .ok true
      else .error (.protocol "failed to get SNMP value") := by
  rw [power_get_valid _ _ _ h1 h2]
  show (if v = 1 then (Except.ok true : Except DriverError Bool)
        else if v = 0 then .ok false
        else if v = 3 then .ok true
        else if v = 2 then .ok false
        else .error (.protocol "failed to get SNMP value")) = _
  split_ifs <;> first | rfl | omega

/-- C1 counterexample to the claim as stated: the out-of-domain message in
the source is `"failed to get SNMP value"`, not
`"failed to get status value"`. -/
theorem claim_C1_cex :
    (power_get (constSession 7) "pdu" none 5).2 =
      .error (.protocol "failed to get SNMP value")
    ∧ "failed to get SNMP value" ≠ "failed to get status value" :=
  ⟨rfl, by decide⟩

/-- C1 witness: raw value 3 (pending on) decodes to `true` at outlet 5. -/
theorem claim_C1_witness :
    (power_get (constSession 3) "pdu" none 5).2 = .ok true := by
  rw [claim_C1 3 "pdu" 5 (by decide) (by decide)]
  rfl

/-- C2: for every valid outlet index and both desired states, `power_set`
performs exactly one session write and no reads; the written value is the
literal 1 in both directions, and on versus off is encoded solely in which
control sub-object address is written. -/
theorem claim_C2 (sess : SnmpSession) (host : String) (i : ℚ) (b : Bool)
    (h1 : 1 ≤ pyInt i) (h2 : pyInt i ≤ NUMBER_OF_OUTLETS) :
    (power_set sess host none i (if b then 1 else 0)).1 =
      [.connect host "public",
        .write (resolveOid (if b then .writeOn else .writeOff) (pyInt i)) 1] := by
  rw [power_set_trace _ _ _ _ h1 h2]
  cases b <;>
    simp [show pyInt (0:ℚ) = 0 from by decide, show pyInt (1:ℚ) = 1 from by decide]

/-- C2 witness: turning outlet 5 on writes value 1 to the turn-on control
address and performs no read. -/
theorem claim_C2_witness :
    (power_set (constSession 0) "pdu" none 5 (if true then 1 else 0)).1 =
      [.connect "pdu" "public",
        .write (resolveOid (if true then .writeOn else .writeOff) (pyInt 5)) 1] :=
  claim_C2 (constSession 0) "pdu" 5 true (by decide) (by decide)

/-- C3: for every outlet index outside [1, 16], both `power_set` and
`power_get` fail with the assertion-style contract error and the
interaction trace is empty: no session object is constructed and no
network interaction occurs. -/
theorem claim_C3 (sess : SnmpSession) (host : String) (i v : ℚ)
    (h : pyInt i < 1 ∨ NUMBER_OF_OUTLETS < pyInt i) :
    power_set sess host none i v = ([], .error .contract)
    ∧ power_get sess host none i = ([], .error .contract) := by
  have hport : ¬((none : Option Int) ≠ none) := fun hh => hh rfl
  have hc : ¬(1 ≤ pyInt i ∧ pyInt i ≤ NUMBER_OF_OUTLETS) := by omega
  constructor
  · unfold power_set
    rw [if_neg hport, if_pos hc]
  · unfold power_get
    rw [if_neg hport, if_pos hc]

/-- C3 witness: outlet 0 and outlet 17 are both rejected with an empty
trace. -/
theorem claim_C3_witness :
    power_set (constSession 0) "pdu" none 0 1 = ([], .error .contract)
    ∧ power_get (constSession 0) "pdu" none 17 = ([], .error .contract) :=
  ⟨(claim_C3 (constSession 0) "pdu" 0 1 (by decide)).1,
    (claim_C3 (constSession 0) "pdu" 17 1 (by decide)).2⟩

/-- C4: a session-capability failure during the read in `power_get` or the
write in `power_set` propagates to the caller unchanged, after exactly one
session interaction (no retry) and never masked as a boolean result; under
the spec's two-kind error taxonomy the propagated failure is of the
ProtocolError kind. -/
theorem claim_C4 (sess : SnmpSession) (host : String) (i v : ℚ) (e : String)
    (h1 : 1 ≤ pyInt i) (h2 : pyInt i ≤ NUMBER_OF_OUTLETS) :
    (sess.get (resolveOid .readStatus (pyInt i)) = .error e →
        power_get sess host none i =
          ([.connect host "public", .read (resolveOid .readStatus (pyInt i))],
            .error (.session e)))
    ∧ (sess.set (resolveOid (if pyInt v = 0 then .writeOff else .writeOn) (pyInt i)) 1
          = .error e →
        power_set sess host none i v =
          ([.connect host "public",
            .write (resolveOid (if pyInt v = 0 then .writeOff else .writeOn) (pyInt i)) 1],
            .error (.session e)))
    ∧ (DriverError.session e).isProtocolError = true := by
  refine ⟨fun hg => ?_, fun hs => ?_, rfl⟩
  · rw [power_get_valid _ _ _ h1 h2, hg]
  · rw [power_set_valid _ _ _ _ h1 h2, hs]

/-- C4 witness: a session whose get fails with "timeout" makes
`power_get` surface exactly that failure after one read. -/
theorem claim_C4_witness :
    power_get ⟨fun _ => .error "timeout", fun _ _ => .error "timeout"⟩ "pdu" none 5 =
      ([.connect "pdu" "public", .read (resolveOid .readStatus (pyInt 5))],
        .error (.session "timeout"))
    ∧ (DriverError.session "timeout").isProtocolError = true :=
  ⟨(claim_C4 ⟨fun _ => .error "timeout", fun _ _ => .error "timeout"⟩
      "pdu" 5 1 "timeout" (by decide) (by decide)).1 rfl,
    (claim_C4 ⟨fun _ => .error "timeout", fun _ _ => .error "timeout"⟩
      "pdu" 5 1 "timeout" (by decide) (by decide)).2.2⟩

/-- C5: over outlet indices 1..16 and the three operation kinds, address
resolution is deterministic (it is a function, and equal inputs give the
equal address) and injective: two resolved addresses coincide exactly when
both the operation kind and the outlet index coincide. -/
theorem claim_C5 :
    ∀ k1 k2 : OpKind, ∀ i1 ∈ Finset.Icc 1 NUMBER_OF_OUTLETS,
      ∀ i2 ∈ Finset.Icc 1 NUMBER_OF_OUTLETS,
        (resolveOid k1 i1 = resolveOid k2 i2 ↔ (k1 = k2 ∧ i1 = i2)) := by
  decide

/-- C5 witness: the status address and the turn-on address of outlet 5
differ. -/
theorem claim_C5_witness :
    resolveOid .readStatus 5 = resolveOid .writeOn 5 ↔
      (OpKind.readStatus = OpKind.writeOn ∧ (5:ℤ) = 5) :=
  claim_C5 .readStatus .writeOn 5 (by decide) 5 (by decide)

/-- C6: every resolved address has the shape `<base>.<subtree>.0.<index>`
with the compiled-in vendor base `OID`, sub-tree digit 2 for status and
4/3 for the on/off controls; `power_get` and `power_set` address exactly
these objects, and the outlet count 16 is a compiled-in constant. -/
theorem claim_C6 (sess : SnmpSession) (host : String) (i : ℚ)
    (h1 : 1 ≤ pyInt i) (h2 : pyInt i ≤ NUMBER_OF_OUTLETS) :
    (∀ k : OpKind, resolveOid k (pyInt i) =
        OID ++ "." ++ subtreeDigit k ++ ".0." ++ toString (pyInt i))
    ∧ (power_get sess host none i).1 =
        [.connect host "public", .read (resolveOid .readStatus (pyInt i))]
    ∧ (∀ v : ℚ, (power_set sess host none i v).1 =
        [.connect host "public",
          .write (resolveOid (if pyInt v = 0 then .writeOff else .writeOn) (pyInt i)) 1])
    ∧ NUMBER_OF_OUTLETS = 16
    ∧ OID = ".1.3.6.1.4.1.534.6.6.7.6.6.1" := by
  refine ⟨fun k => ?_, power_get_trace _ _ _ h1 h2,
    fun v => power_set_trace _ _ _ _ h1 h2, rfl, rfl⟩
  cases k <;>
    simp [resolveOid, subtreeDigit, String.append_assoc, String.append_empty,
      String.empty_append, toString_string]

/-- C6 witness: the status read of outlet 5 addresses the resolver's
status object. -/
theorem claim_C6_witness :
    (power_get (constSession 0) "pdu" none 5).1 =
      [.connect "pdu" "public", .read (resolveOid .readStatus (pyInt 5))] :=
  (claim_C6 (constSession 0) "pdu" 5 (by decide) (by decide)).2.1

/-- C7: whenever `port` is not the `None` sentinel, both entry points fail
with the contract error immediately, with an empty interaction trace,
regardless of the outlet index. -/
theorem claim_C7 (sess : SnmpSession) (host : String) (p : Option Int) (i v : ℚ)
    (h : p ≠ none) :
    power_set sess host p i v = ([], .error .contract)
    ∧ power_get sess host p i = ([], .error .contract) := by
  constructor
  · unfold power_set
    rw [if_pos h]
  · unfold power_get
    rw [if_pos h]

/-- C7 witness: passing port 0 (not the sentinel) is rejected without any
interaction, even with an out-of-range index. -/
theorem claim_C7_witness :
    power_set (constSession 0) "pdu" (some 0) 99 1 = ([], .error .contract)
    ∧ power_get (constSession 0) "pdu" (some 0) 99 = ([], .error .contract) :=
  claim_C7 (constSession 0) "pdu" (some 0) 99 1 (by decide)

/-- C8 (amended): the ProtocolError raised for an unrecognized status value
is the fixed message `"failed to get SNMP value"`, identical for every
host and outlet index; it does not carry host, outlet or operation
context. -/
theorem claim_C8 (host : String) (i : ℚ) (v : Int)
    (h1 : 1 ≤ pyInt i) (h2 : pyInt i ≤ NUMBER_OF_OUTLETS)
    (hv : ¬(v = 0 ∨ v = 1 ∨ v = 2 ∨ v = 3)) :
    (power_get (constSession v) host none i).2 =
      .error (.protocol "failed to get SNMP value") := by
  push_neg at hv
  obtain ⟨hv0, hv1, hv2, hv3⟩ := hv
  rw [power_get_valid _ _ _ h1 h2]
  show (if v = 1 then (Except.ok true : Except DriverError Bool)
        else if v = 0 then .ok false
        else if v = 3 then .ok true
        else if v = 2 then .ok false
        else .error (.protocol "failed to get SNMP value")) = _
  rw [if_neg hv1, if_neg hv0, if_neg hv3, if_neg hv2]

/-- C8 counterexample to the claim as stated: the error surfaced for two
different hosts and two different outlet indices is one and the same
value, so it cannot carry the host or the outlet index. -/
theorem claim_C8_cex :
    (power_get (constSession 9) "host-a" none 5).2 =
      (power_get (constSession 9) "host-b" none 12).2
    ∧ (power_get (constSession 9) "host-a" none 5).2 =
      .error (.protocol "failed to get SNMP value") :=
  ⟨rfl, rfl⟩

/-- C8 witness: raw value 9 at outlet 5 yields the fixed protocol
message. -/
theorem claim_C8_witness :
    (power_get (constSession 9) "pdu" none 5).2 =
      .error (.protocol "failed to get SNMP value") :=
  claim_C8 "pdu" 5 9 (by decide) (by decide) (by decide)

/-- C9: both entry points coerce the index with `int()` before range
validation, so the non-integral index 169/10 (Python float 16.9) is
truncated to 16, behaves exactly like index 16, and is accepted: the
status read proceeds against outlet 16. -/
theorem claim_C9 (sess : SnmpSession) (host : String) (q : ℚ)
    (hnum : q.num = 169) (hden : q.den = 10) :
    pyInt q = 16
    ∧ power_get sess host none q = power_get sess host none 16
    ∧ (∀ v : ℚ, power_set sess host none q v = power_set sess host none 16 v)
    ∧ (power_get sess host none q).1 =
        [.connect host "public", .read (resolveOid .readStatus 16)] := by
  have h16 : pyInt q = 16 := by
    unfold pyInt
    rw [hnum, hden]
    decide
  have h16' : pyInt (16:ℚ) = 16 := by decide
  refine ⟨h16, ?_, fun v => ?_, ?_⟩
  · unfold power_get
    rw [h16, h16']
  · unfold power_set
    rw [h16, h16']
  · rw [power_get_trace _ _ _ (by rw [h16]; decide) (by rw [h16]; decide), h16]

/-- C9 witness: the driver accepts index 169/10 and reads outlet 16's
status object. -/
theorem claim_C9_witness :
    pyInt (Rat.divInt 169 10) = 16
    ∧ (power_get (constSession 1) "pdu" none (Rat.divInt 169 10)).1 =
        [.connect "pdu" "public", .read (resolveOid .readStatus 16)] :=
  ⟨(claim_C9 (constSession 1) "pdu" (Rat.divInt 169 10) (by decide) (by decide)).1,
    (claim_C9 (constSession 1) "pdu" (Rat.divInt 169 10) (by decide) (by decide)).2.2.2⟩

/-- C10: `power_set` selects the control sub-object by the truthiness of
`int(value)`: nonzero truncation addresses the turn-on sub-tree, zero
truncation the turn-off sub-tree, and no value is ever rejected -- the
call ends in success or a propagated session failure, never in a
value-validation error. -/
theorem claim_C10 (sess : SnmpSession) (host : String) (i v : ℚ)
    (h1 : 1 ≤ pyInt i) (h2 : pyInt i ≤ NUMBER_OF_OUTLETS) :
    (pyInt v ≠ 0 →
        (power_set sess host none i v).1 =
          [.connect host "public", .write (resolveOid .writeOn (pyInt i)) 1])
    ∧ (pyInt v = 0 →
        (power_set sess host none i v).1 =
          [.connect host "public", .write (resolveOid .writeOff (pyInt i)) 1])
    ∧ ((power_set sess host none i v).2 = .ok ()
        ∨ ∃ e, (power_set sess host none i v).2 = .error (.session e)) := by
  refine ⟨fun hv => ?_, fun hv => ?_, ?_⟩
  · rw [power_set_trace _ _ _ _ h1 h2, if_neg hv]
  · rw [power_set_trace _ _ _ _ h1 h2, if_pos hv]
  · rw [power_set_valid _ _ _ _ h1 h2]
    rcases hs : sess.set (resolveOid (if pyInt v = 0 then .writeOff else .writeOn) (pyInt i)) 1
      with e | u
    · right
      exact ⟨e, rfl⟩
    · left
      rfl

/-- C10 witness: value 1/2 truncates to 0, so it is treated as falsy and
addresses the turn-off sub-tree of outlet 5. -/
theorem claim_C10_witness :
    (power_set (constSession 0) "pdu" none 5 (Rat.divInt 1 2)).1 =
      [.connect "pdu" "public", .write (resolveOid .writeOff (pyInt 5)) 1] :=
  (claim_C10 (constSession 0) "pdu" 5 (Rat.divInt 1 2) (by decide) (by decide)).2.1
    (by decide)

end Eaton
